import Mathlib

/-!
Shallow embedding of the test-orchestration harness of the
`vercelgateway-azurefoundry` repository (src/unnamed/part_001, the main
`index.ts` script, and src/index_with_flux.ts, the flux variant).

The scripts are single-threaded Node/Bun programs that await each network
call before proceeding.  An awaited asynchronous test action therefore
collapses to: the lines it printed to standard output before settling plus
either a normal resolution or a rejection carrying an error value.  We model
errors as a message string plus an optional stringified `cause`, console
output streams as lists of strings (one entry per `console.log` /
`console.error` call), and the remote inference service as an oracle
supplying the outcome of each network call.
-/

/-- A JavaScript error value as inspected by the harness: `err.message`
and the optional nested `err.cause` (stringified as printed). -/
structure Err where
  message : String
  cause : Option String
deriving Repr, DecidableEq

/-- The observable behaviour of one awaited zero-argument asynchronous test
action: the stdout lines it printed before settling, the number of remote
(network) calls it performed, and `none` for normal resolution or
`some e` for rejection with error `e`. -/
structure ActionBehavior where
  output : List String
  netCalls : Nat
  result : Option Err
deriving Repr, DecidableEq

/-- `TestResult` of the data model: `{ name, passed }`, appended per test. -/
structure TestResult where
  name : String
  passed : Bool
deriving Repr, DecidableEq

/-- What one `runTest` invocation produces: the returned boolean plus the
lines written to stdout and stderr. -/
structure RunTestOut where
  passed : Bool
  stdout : List String
  stderr : List String
deriving Repr, DecidableEq

/-- Sixty `═` characters, from `"═".repeat(60)`. -/
def bar60 : String := String.mk (List.replicate 60 '═')

/-- `divider(title)` (part_001 lines 65-69): three `console.log` calls. -/
def divider (title : String) : List String :=
  ["\n" ++ bar60, "  " ++ title, bar60 ++ "\n"]

/-- The stderr lines of the catch branch of `runTest` (part_001 lines
80-84): the FAILED banner, the error message (the source prints
`err.message || err`; we model errors with a `message` field), and the
`Cause:` line when `err.cause` is present. -/
def failLines (name : String) (e : Err) : List String :=
  ["\n❌  " ++ name ++ " — FAILED", "    " ++ e.message] ++
    (match e.cause with
     | some c => ["    Cause: " ++ c]
     | none => [])

/-- `runTest(name, fn)` (part_001 lines 71-86): prints the divider, awaits
the action; on resolution prints the PASSED banner and returns `true`; on
rejection prints the failure lines to stderr and returns `false`.  The
catch swallows the rejection, so the function is total. -/
def runTest (name : String) (fn : ActionBehavior) : RunTestOut :=
  match fn.result with
  | none =>
    { passed := true
      stdout := divider name ++ fn.output ++ ["\n✅  " ++ name ++ " — PASSED"]
      stderr := [] }
  | some e =>
    { passed := false
      stdout := divider name ++ fn.output
      stderr := failLines name e }

/-- Events of the sequential execution trace: test number `i` (0-based
registration index) starts; test number `i` settles with a pass flag. -/
inductive Ev where
  | start (i : Nat)
  | settle (i : Nat) (passed : Bool)
deriving Repr, DecidableEq

/-- The registration index an event belongs to. -/
def Ev.idx : Ev → Nat
  | .start i => i
  | .settle i _ => i

/-- Whether an event is a start event. -/
def Ev.isStart : Ev → Bool
  | .start _ => true
  | .settle _ _ => false

/-- Accumulated observable state of the test loop. -/
structure HarnessOut where
  results : List TestResult
  stdout : List String
  stderr : List String
  trace : List Ev
  netCalls : Nat
deriving Repr, DecidableEq

/-- The body of the `for (const [name, fn] of tests)` loop of `main`
(part_001 lines 232-235), with `i` the registration index of the first
remaining test: run each test via `runTest`, push `{name, passed}`, and
continue unconditionally with the next test. -/
def runAllFrom (i : Nat) : List (String × ActionBehavior) → HarnessOut
  | [] => { results := [], stdout := [], stderr := [], trace := [], netCalls := 0 }
  | (name, fn) :: rest =>
    let o := runTest name fn
    let r := runAllFrom (i + 1) rest
    { results := { name := name, passed := o.passed } :: r.results
      stdout := o.stdout ++ r.stdout
      stderr := o.stderr ++ r.stderr
      trace := Ev.start i :: Ev.settle i o.passed :: r.trace
      netCalls := fn.netCalls + r.netCalls }

/-- The full test loop, starting at registration index 0. -/
def runAll (tests : List (String × ActionBehavior)) : HarnessOut :=
  runAllFrom 0 tests

/-- One summary line per result (part_001 line 240). -/
def resultLine (r : TestResult) : String :=
  "  " ++ (if r.passed then "✅" else "❌") ++ "  " ++ r.name

/-- The aggregate summary line (part_001 lines 242-243):
`\n  <passed>/<total> tests passed` with
`passed = results.filter(r => r.passed).length`. -/
def summaryLine (results : List TestResult) : String :=
  "\n  " ++ toString (results.filter (fun r => r.passed)).length ++ "/" ++
    toString results.length ++ " tests passed"

/-- The whole summary block printed after the loop (part_001 lines 237-243). -/
def summaryBlock (results : List TestResult) : List String :=
  divider "Summary" ++ results.map resultLine ++ [summaryLine results]

/-- The environment variables the scripts read (each `Option String`:
`none` models an unset variable). -/
structure Env where
  endpoint : Option String
  apiKey : Option String
  modelGpt : Option String
  modelAlt : Option String
  modelKimi : Option String
  modelFlux : Option String
  fluxEndpoint : Option String
deriving Repr, DecidableEq

/-- JavaScript falsiness of `process.env.X`: unset (`undefined`) or the
empty string. -/
def falsyOpt : Option String → Bool
  | none => true
  | some s => s = ""

/-- `process.env.X || default` (part_001 lines 29-30): the default when the
variable is unset or empty. -/
def envOr (v : Option String) (d : String) : String :=
  match v with
  | none => d
  | some s => if s = "" then d else s

/-- `AZURE_ENDPOINT` as a string (empty when unset), for printing. -/
def Env.endpointStr (env : Env) : String := env.endpoint.getD ""

/-- `MODEL_GPT = process.env.AZURE_MODEL_GPT || "gpt-4o"` (part_001 line 29). -/
def Env.modelGptStr (env : Env) : String := envOr env.modelGpt "gpt-4o"

/-- `MODEL_ALT = process.env.AZURE_MODEL_ALT || ""` (part_001 line 30). -/
def Env.modelAltStr (env : Env) : String := envOr env.modelAlt ""

/-- The pre-flight gate condition (part_001 line 32):
`!AZURE_ENDPOINT || !AZURE_API_KEY`. -/
def preflightFails (env : Env) : Bool :=
  falsyOpt env.endpoint || falsyOpt env.apiKey

/-- The diagnostic printed by the gate (part_001 lines 33-35). -/
def configErrorMsg : String :=
  "❌  Missing AZURE_API_ENDPOINT or AZURE_API_KEY — copy .env.example → .env and fill in your values."

/-- The banner printed at the top of `main` (part_001 lines 216-219). -/
def bannerLines (env : Env) : List String :=
  ["🚀 Vercel AI SDK v6 + Azure AI Foundry — Starter Kit\n",
   "Endpoint: " ++ env.endpointStr,
   "Primary model: " ++ env.modelGptStr,
   "Alternative model: " ++
     (if env.modelAltStr = "" then "(not set)" else env.modelAltStr)]

/-- Observable outcome of one whole process run: the two streams, the exit
code, the result sequence of the run, the total number of remote calls
performed, and the execution trace. -/
structure ProcOut where
  stdout : List String
  stderr : List String
  exitCode : Nat
  results : List TestResult
  netCalls : Nat
  trace : List Ev
deriving Repr, DecidableEq

/-- The process with an arbitrary registered test list: the module-level
pre-flight gate (part_001 lines 32-37) runs before any test; on failure it
prints the diagnostic and exits with status 1 having executed nothing.
Otherwise `main` prints the banner, runs the loop, prints the summary, and
the process exits 0 (`main().catch(console.error)` never sets a non-zero
code). -/
def programGeneric (env : Env) (tests : List (String × ActionBehavior)) : ProcOut :=
  if preflightFails env then
    { stdout := [], stderr := [configErrorMsg], exitCode := 1,
      results := [], netCalls := 0, trace := [] }
  else
    let h := runAll tests
    { stdout := bannerLines env ++ h.stdout ++ summaryBlock h.results
      stderr := h.stderr
      exitCode := 0
      results := h.results
      netCalls := h.netCalls
      trace := h.trace }

/-- The result of one `generateText` call: the text and an optional
stringified usage object. -/
structure GenOut where
  text : String
  usage : Option String
deriving Repr, DecidableEq

/-- Raw (unvalidated) arguments the remote model attaches to a requested
`getWeather` tool invocation, as JSON fields: an optional `location`
string and an optional `unit` string. -/
structure RawArgs where
  location : Option String
  unit : Option String
deriving Repr, DecidableEq

/-- Arguments that passed validation against the declared input schema
(part_001 lines 150-156): `location` a string, `unit` absent or one of
`"celsius"` / `"fahrenheit"`. -/
structure WeatherArgs where
  location : String
  unit : Option String
deriving Repr, DecidableEq

/-- Validation against the zod `inputSchema` of the `getWeather` tool
(part_001 lines 150-156): `location` must be present; `unit`, when
present, must be `"celsius"` or `"fahrenheit"`. -/
def validateWeatherArgs (a : RawArgs) : Option WeatherArgs :=
  match a.location with
  | none => none
  | some loc =>
    match a.unit with
    | none => some { location := loc, unit := none }
    | some u =>
      if u = "celsius" || u = "fahrenheit" then
        some { location := loc, unit := some u }
      else none

/-- The simulated weather table of the `execute` callback
(part_001 lines 159-163), keyed by lowercased city name. -/
def weatherTemp (city : String) : Nat :=
  if city = "san francisco" then 18
  else if city = "tokyo" then 22
  else if city = "london" then 12
  else 20

/-- `Math.round(temp * 1.8 + 32)` for a natural Celsius temperature
(part_001 line 167), computed exactly: round-half-up of `(18*t + 320)/10`. -/
def toFahrenheit (t : Nat) : Nat := (18 * t + 320 + 5) / 10

/-- JavaScript `toLowerCase()` restricted to its ASCII behaviour, written
structurally over the character list. -/
def strToLower (s : String) : String := String.mk (s.data.map Char.toLower)

/-- The `execute` callback of the `getWeather` tool (part_001 lines
157-169), run locally on validated arguments. -/
def getWeatherExecute (args : WeatherArgs) : String :=
  let temp := weatherTemp (strToLower args.location)
  let displayUnit := if args.unit = some "fahrenheit" then "°F" else "°C"
  let displayTemp := if args.unit = some "fahrenheit" then toFahrenheit temp else temp
  args.location ++ ": " ++ toString displayTemp ++ displayUnit ++ ", partly cloudy"

/-- One model round trip of the tool-calling interaction: the remote model
either produces final text, requests a batch of `getWeather` invocations,
or the call fails with an error. -/
inductive ModelReply where
  | finish (text : String)
  | callTool (calls : List RawArgs)
  | fail (e : Err)
deriving Repr, DecidableEq

/-- The outcome of the multi-step tool-call interaction: the final text,
the number of model round trips performed, the log of locally executed
tool invocations (raw arguments with the string the callback returned),
and the requested invocations that failed schema validation. -/
structure LoopOut where
  text : String
  roundTrips : Nat
  executed : List (RawArgs × String)
  invalid : List RawArgs
deriving Repr, DecidableEq

/-- Run one batch of requested tool invocations: each is validated against
the declared input schema, and only on success does the registered
`execute` callback run locally. -/
def runToolBatch : List RawArgs → List (RawArgs × String) × List RawArgs
  | [] => ([], [])
  | a :: rest =>
    let (ex, inv) := runToolBatch rest
    match validateWeatherArgs a with
    | some w => ((a, getWeatherExecute w) :: ex, inv)
    | none => (ex, a :: inv)

/-- Modelled from the spec: the multi-step tool-call loop of the external
`ai` SDK's `generateText` with `stopWhen: stepCountIs(n)` — this loop is
not part of the repository's sources, only configured by them.  Per the
spec's collaborator contract, "the remote model may request zero or more
tool invocations, each validated against a declared input schema before
the harness's registered tool-execution callback runs locally; total
model/tool round trips capped by a step bound to guarantee termination."
`oracle k` is the model's reply on round trip number `k` (0-based);
`fuel` is the remaining step budget.  When the budget is exhausted the
interaction is forced to terminate with the text produced so far. -/
def toolLoopGo (oracle : Nat → ModelReply) (k : Nat) :
    Nat → Except Err LoopOut
  | 0 => Except.ok { text := "", roundTrips := k, executed := [], invalid := [] }
  | fuel + 1 =>
    match oracle k with
    | .finish t =>
      Except.ok { text := t, roundTrips := k + 1, executed := [], invalid := [] }
    | .fail e => Except.error e
    | .callTool calls =>
      let (ex, inv) := runToolBatch calls
      match toolLoopGo oracle (k + 1) fuel with
      | .ok r =>
        Except.ok { r with executed := ex ++ r.executed, invalid := inv ++ r.invalid }
      | .error e => Except.error e

/-- The step bound the harness configures: `stopWhen: stepCountIs(5)`
(part_001 line 172). -/
def toolStepBound : Nat := 5

/-- The whole tool-call interaction as configured by `testToolCalling`. -/
def runToolLoop (oracle : Nat → ModelReply) : Except Err LoopOut :=
  toolLoopGo oracle 0 toolStepBound

/-- The outcomes of the remote service's calls, one field per call shape
the six tests use: `gen model prompt` for single-prompt `generateText`,
`genMsgs model` for the multi-turn conversation, `genCompat model prompt`
for the OpenAI-compatible provider, `stream model prompt` for the fully
drained stream chunks, and `toolStep k` for round trip `k` of the
tool-calling interaction. -/
structure Oracle where
  gen : String → String → Except Err GenOut
  genMsgs : String → Except Err GenOut
  genCompat : String → String → Except Err GenOut
  stream : String → String → Except Err (List String)
  toolStep : Nat → ModelReply

/-- The usage line `testGenerateText` conditionally prints
(part_001 lines 98-100). -/
def usageLines : Option String → List String
  | some u => ["Tokens: " ++ u]
  | none => []

/-- Test 1, `testGenerateText` (part_001 lines 89-101). -/
def testGenerateText (o : Oracle) (modelGpt : String) : ActionBehavior :=
  match o.gen modelGpt "Explain what Azure AI Foundry is in 2 sentences." with
  | .ok g =>
    { output := ["Provider: @quail-ai/azure-ai-provider", "Model: " ++ modelGpt,
                 "Response: " ++ g.text] ++ usageLines g.usage
      netCalls := 1, result := none }
  | .error e => { output := [], netCalls := 1, result := some e }

/-- Test 2, `testStreamText` (part_001 lines 104-115); the incremental
`process.stdout.write` calls of the drained stream are modelled as one
line holding their concatenation, followed by the final empty
`console.log()`. -/
def testStreamText (o : Oracle) (modelGpt : String) : ActionBehavior :=
  match o.stream modelGpt "Write a haiku about cloud computing." with
  | .ok chunks =>
    { output := ["Streamed: " ++ String.join chunks, ""]
      netCalls := 1, result := none }
  | .error e => { output := [], netCalls := 1, result := some e }

/-- Test 3, `testConversation` (part_001 lines 118-137). -/
def testConversation (o : Oracle) (modelGpt : String) : ActionBehavior :=
  match o.genMsgs modelGpt with
  | .ok g =>
    { output := ["Multi-turn response: " ++ g.text], netCalls := 1, result := none }
  | .error e => { output := [], netCalls := 1, result := some e }

/-- Rendering of the tool-call log printed by `testToolCalling`
(part_001 lines 177-184): one entry per executed invocation. -/
def renderToolCalls (executed : List (RawArgs × String)) : String :=
  String.intercalate "," (executed.map (fun p => "getWeather(" ++ reprStr p.1 ++ ")"))

/-- Test 4, `testToolCalling` (part_001 lines 143-185): runs the bounded
tool-call interaction; each model/tool round trip is a remote call. -/
def testToolCalling (o : Oracle) (_modelGpt : String) : ActionBehavior :=
  match runToolLoop o.toolStep with
  | .ok r =>
    { output := ["Provider: @ai-sdk/openai (custom headers)",
                 "Final text: " ++ r.text,
                 "Tool calls made: " ++ renderToolCalls r.executed]
      netCalls := r.roundTrips, result := none }
  | .error e => { output := [], netCalls := 1, result := some e }

/-- Test 5, `testOpenAICompatProvider` (part_001 lines 188-196). -/
def testOpenAICompatProvider (o : Oracle) (modelGpt : String) : ActionBehavior :=
  match o.genCompat modelGpt "Say 'hello from OpenAI-compatible provider' and nothing else." with
  | .ok g =>
    { output := ["Provider: @ai-sdk/openai-compatible", "Response: " ++ g.text]
      netCalls := 1, result := none }
  | .error e => { output := [], netCalls := 1, result := some e }

/-- The skip line of `testAlternativeModel` (part_001 line 201). -/
def skipLine : String := "⏭️  Skipped — AZURE_MODEL_ALT not set in .env"

/-- Test 6, `testAlternativeModel` (part_001 lines 199-212): when
`MODEL_ALT` is empty it prints the skip line and returns normally without
any remote call; otherwise it queries the remote service. -/
def testAlternativeModel (o : Oracle) (modelAlt : String) : ActionBehavior :=
  if modelAlt = "" then
    { output := [skipLine], netCalls := 0, result := none }
  else
    match o.gen modelAlt "What model are you? Reply in one sentence." with
    | .ok g =>
      { output := ["Model: " ++ modelAlt, "Response: " ++ g.text]
        netCalls := 1, result := none }
    | .error e => { output := [], netCalls := 1, result := some e }

/-- The fixed ordered test list of `main` (part_001 lines 223-230). -/
def indexTests (env : Env) (o : Oracle) : List (String × ActionBehavior) :=
  [("1. Generate Text (Foundry Provider)", testGenerateText o env.modelGptStr),
   ("2. Stream Text (Foundry Provider)", testStreamText o env.modelGptStr),
   ("3. Multi-turn Conversation", testConversation o env.modelGptStr),
   ("4. Tool Calling (@ai-sdk/openai)", testToolCalling o env.modelGptStr),
   ("5. OpenAI-Compatible Provider", testOpenAICompatProvider o env.modelGptStr),
   ("6. Alternative Model", testAlternativeModel o env.modelAltStr)]

/-- The whole `index.ts` process (part_001): pre-flight gate, banner, the
six tests, summary. -/
def programIndex (env : Env) (o : Oracle) : ProcOut :=
  programGeneric env (indexTests env o)

/-- `MODEL_KIMI = process.env.AZURE_MODEL_KIMI || "Kimi-K2.5"`
(index_with_flux.ts line 34). -/
def Env.modelKimiStr (env : Env) : String := envOr env.modelKimi "Kimi-K2.5"

/-- `FLUX_ENDPOINT = process.env.FLUX_ENDPOINT || "https://jai-omi.openai.azure.com/openai/v1/"`
(index_with_flux.ts line 38). -/
def Env.fluxEndpointStr (env : Env) : String :=
  envOr env.fluxEndpoint "https://jai-omi.openai.azure.com/openai/v1/"

/-- The lines of the flux variant's configuration banner that print before
the faulty interpolation (index_with_flux.ts lines 277-280). -/
def fluxBannerPrefix (env : Env) : List String :=
  ["🚀 Vercel AI SDK v6 + Azure AI Foundry — Enhanced Integration Test Suite\n",
   "Configuration:",
   "├── Text Models Endpoint: " ++ env.endpointStr,
   "├── Image Model Endpoint: " ++ env.fluxEndpointStr]

/-- The error raised when line 281 of index_with_flux.ts evaluates the
identifier `MODEL_GPd`, which is declared nowhere in the file (the
constant is named `MODEL_GPT`): a `ReferenceError`. -/
def gpdRefError : Err := { message := "MODEL_GPd is not defined", cause := none }

/-- `main` of index_with_flux.ts (lines 276-316): prints the first four
banner lines; the template literal on line 281 interpolates the undefined
identifier `MODEL_GPd`, so evaluation raises a `ReferenceError` there,
before the test list is built and before the loop runs; the remainder of
the body (tests, summary) is unreachable.  Returns the stdout lines
printed, the results collected (none) and the rejection. -/
def fluxMain (env : Env) (_o : Oracle) : List String × List TestResult × Option Err :=
  (fluxBannerPrefix env, [], some gpdRefError)

/-- The first stack line `console.error` prints for a `ReferenceError`. -/
def refErrorLine (e : Err) : String := "ReferenceError: " ++ e.message

/-- The whole index_with_flux.ts process: the same module-level pre-flight
gate (lines 40-45); then `main().catch(console.error)` (line 318) — a
rejection of `main` is logged to stderr by the trailing catch and the
process still exits with status 0. -/
def programFlux (env : Env) (o : Oracle) : ProcOut :=
  if preflightFails env then
    { stdout := [], stderr := [configErrorMsg], exitCode := 1,
      results := [], netCalls := 0, trace := [] }
  else
    match fluxMain env o with
    | (printed, results, some e) =>
      { stdout := printed, stderr := [refErrorLine e], exitCode := 0,
        results := results, netCalls := 0, trace := [] }
    | (printed, results, none) =>
      { stdout := printed, stderr := [], exitCode := 0,
        results := results, netCalls := 0, trace := [] }

/-! ## Helper lemmas -/

/-- `runTest` returns `true` exactly when the action resolved. -/
theorem runTest_passed (name : String) (fn : ActionBehavior) :
    (runTest name fn).passed = fn.result.isNone := by
  cases h : fn.result <;> simp [runTest, h]

/-- Every line the action printed appears in the stdout of `runTest`. -/
theorem runTest_output_mem (name : String) (fn : ActionBehavior)
    {line : String} (h : line ∈ fn.output) :
    line ∈ (runTest name fn).stdout := by
  cases hr : fn.result <;> simp [runTest, hr, h]

/-- The result sequence of the loop: one `{name, passed}` entry per
registered test, in order, with `passed` true exactly when the action
resolved. -/
theorem runAllFrom_results (i : Nat) (tests : List (String × ActionBehavior)) :
    (runAllFrom i tests).results =
      tests.map (fun t => { name := t.1, passed := t.2.result.isNone }) := by
  induction tests generalizing i with
  | nil => rfl
  | cons t ts ih =>
    obtain ⟨name, fn⟩ := t
    simp [runAllFrom, ih, runTest_passed]

/-- Every index in the trace of `runAllFrom i` is at least `i`. -/
theorem runAllFrom_trace_idx_ge (i : Nat) (tests : List (String × ActionBehavior)) :
    ∀ e ∈ (runAllFrom i tests).trace, i ≤ e.idx := by
  induction tests generalizing i with
  | nil => intro e he; simp [runAllFrom] at he
  | cons t ts ih =>
    obtain ⟨name, fn⟩ := t
    intro e he
    simp only [runAllFrom, List.mem_cons] at he
    rcases he with rfl | rfl | he
    · exact Nat.le_refl _
    · exact Nat.le_refl _
    · exact Nat.le_trans (Nat.le_succ i) (ih (i + 1) e he)

/-- Every stdout line of every registered action appears in the loop's
stdout. -/
theorem runAllFrom_output_mem (i : Nat) (tests : List (String × ActionBehavior)) :
    ∀ t ∈ tests, ∀ line ∈ t.2.output, line ∈ (runAllFrom i tests).stdout := by
  induction tests generalizing i with
  | nil => intro t ht; simp at ht
  | cons hd ts ih =>
    obtain ⟨name, fn⟩ := hd
    intro t ht line hline
    simp only [List.mem_cons] at ht
    rcases ht with rfl | ht
    · simp only [runAllFrom, List.mem_append]
      exact Or.inl (runTest_output_mem name fn hline)
    · simp only [runAllFrom, List.mem_append]
      exact Or.inr (ih (i + 1) t ht line hline)

/-- Strict temporal precedence between trace events: either the earlier
event belongs to an earlier test, or both belong to the same test and the
earlier one is its start and the later its settling. -/
def evBefore (a b : Ev) : Prop :=
  a.idx < b.idx ∨ (a.idx = b.idx ∧ a.isStart = true ∧ b.isStart = false)

/-- The trace of the loop is strictly ordered by `evBefore`: events of an
earlier test all precede events of a later test, and each start precedes
its own settling. -/
theorem runAllFrom_trace_pairwise (i : Nat) (tests : List (String × ActionBehavior)) :
    ((runAllFrom i tests).trace).Pairwise evBefore := by
  induction tests generalizing i with
  | nil => simp [runAllFrom]
  | cons t ts ih =>
    obtain ⟨name, fn⟩ := t
    have hge := runAllFrom_trace_idx_ge (i + 1) ts
    simp only [runAllFrom]
    refine List.Pairwise.cons ?_ (List.Pairwise.cons ?_ (ih (i + 1)))
    · intro e he
      simp only [List.mem_cons] at he
      rcases he with rfl | he
      · exact Or.inr ⟨rfl, rfl, rfl⟩
      · exact Or.inl (Nat.lt_of_lt_of_le (Nat.lt_succ_self i) (hge e he))
    · intro e he
      exact Or.inl (Nat.lt_of_lt_of_le (Nat.lt_succ_self i) (hge e he))

/-- Each registered test contributes its start event to the trace. -/
theorem runAllFrom_start_mem (tests : List (String × ActionBehavior)) :
    ∀ i k, k < tests.length → Ev.start (i + k) ∈ (runAllFrom i tests).trace := by
  induction tests with
  | nil => intro i k hk; simp at hk
  | cons t ts ih =>
    obtain ⟨name, fn⟩ := t
    intro i k hk
    cases k with
    | zero => simp [runAllFrom]
    | succ k =>
      have : i + (k + 1) = (i + 1) + k := by omega
      rw [this]
      simp only [runAllFrom, List.mem_cons]
      exact Or.inr (Or.inr (ih (i + 1) k (by simpa using hk)))

/-- Each registered test contributes its settling event to the trace. -/
theorem runAllFrom_settle_mem (tests : List (String × ActionBehavior)) :
    ∀ i k, k < tests.length → ∃ b, Ev.settle (i + k) b ∈ (runAllFrom i tests).trace := by
  induction tests with
  | nil => intro i k hk; simp at hk
  | cons t ts ih =>
    obtain ⟨name, fn⟩ := t
    intro i k hk
    cases k with
    | zero => exact ⟨(runTest name fn).passed, by simp [runAllFrom]⟩
    | succ k =>
      have heq : i + (k + 1) = (i + 1) + k := by omega
      rw [heq]
      obtain ⟨b, hb⟩ := ih (i + 1) k (by simpa using hk)
      exact ⟨b, by simp only [runAllFrom, List.mem_cons]; exact Or.inr (Or.inr hb)⟩

/-- Every executed entry of a tool batch passed schema validation, and the
callback ran on exactly the validated arguments. -/
theorem runToolBatch_executed (calls : List RawArgs) :
    ∀ p ∈ (runToolBatch calls).1,
      ∃ w, validateWeatherArgs p.1 = some w ∧ p.2 = getWeatherExecute w := by
  induction calls with
  | nil => intro p hp; simp [runToolBatch] at hp
  | cons a rest ih =>
    intro p hp
    simp only [runToolBatch] at hp
    cases hv : validateWeatherArgs a with
    | none => rw [hv] at hp; exact ih p hp
    | some w =>
      rw [hv] at hp
      simp only [List.mem_cons] at hp
      rcases hp with rfl | hp
      · exact ⟨w, hv, rfl⟩
      · exact ih p hp

/-- The loop performs at most `k + fuel` round trips when started on round
trip `k` with `fuel` steps of budget. -/
theorem toolLoopGo_roundTrips (oracle : Nat → ModelReply) :
    ∀ fuel k r, toolLoopGo oracle k fuel = Except.ok r → r.roundTrips ≤ k + fuel := by
  intro fuel
  induction fuel with
  | zero =>
    intro k r h
    simp only [toolLoopGo] at h
    cases h
    simp
  | succ fuel ih =>
    intro k r h
    simp only [toolLoopGo] at h
    cases ho : oracle k with
    | finish t => rw [ho] at h; cases h; simp
    | fail e => rw [ho] at h; cases h
    | callTool calls =>
      rw [ho] at h
      cases hrec : toolLoopGo oracle (k + 1) fuel with
      | error e => rw [hrec] at h; cases h
      | ok r2 =>
        rw [hrec] at h
        cases h
        have := ih (k + 1) r2 hrec
        simpa using by omega

/-- Every tool invocation whose callback ran during the loop passed schema
validation first. -/
theorem toolLoopGo_executed (oracle : Nat → ModelReply) :
    ∀ fuel k r, toolLoopGo oracle k fuel = Except.ok r →
      ∀ p ∈ r.executed,
        ∃ w, validateWeatherArgs p.1 = some w ∧ p.2 = getWeatherExecute w := by
  intro fuel
  induction fuel with
  | zero =>
    intro k r h p hp
    simp only [toolLoopGo] at h
    cases h
    simp at hp
  | succ fuel ih =>
    intro k r h p hp
    simp only [toolLoopGo] at h
    cases ho : oracle k with
    | finish t => rw [ho] at h; cases h; simp at hp
    | fail e => rw [ho] at h; cases h
    | callTool calls =>
      rw [ho] at h
      cases hrec : toolLoopGo oracle (k + 1) fuel with
      | error e => rw [hrec] at h; cases h
      | ok r2 =>
        rw [hrec] at h
        cases h
        simp only [List.mem_append] at hp
        rcases hp with hp | hp
        · exact runToolBatch_executed calls p hp
        · exact ih (k + 1) r2 hrec p hp

/-- Boolean test that `sub` is an initial segment of `s` (character lists). -/
def leadsWith : List Char → List Char → Bool
  | [], _ => true
  | _ :: _, [] => false
  | a :: as, b :: bs => a = b && leadsWith as bs

/-- Number of positions of `s` at which `sub` starts (occurrence count). -/
def occFrom (sub : List Char) : List Char → Nat
  | [] => 0
  | c :: rest => (if leadsWith sub (c :: rest) then 1 else 0) + occFrom sub rest

/-- Number of occurrences of `sub` inside the string `s`. -/
def countOcc (sub s : String) : Nat := occFrom sub.data s.data

/-- Total number of occurrences of `sub` across the lines of a stream. -/
def streamOcc (sub : String) (lines : List String) : Nat :=
  (lines.map (countOcc sub)).sum

/-! ## Concrete fixtures -/

/-- An oracle on which every remote call succeeds. -/
def okOracle : Oracle :=
  { gen := fun _ _ => .ok { text := "ok", usage := none }
    genMsgs := fun _ => .ok { text := "ok", usage := none }
    genCompat := fun _ _ => .ok { text := "ok", usage := none }
    stream := fun _ _ => .ok ["ok"]
    toolStep := fun _ => .finish "done" }

/-- A configuration with both required values present and the optional
secondary model unset. -/
def envAltUnset : Env :=
  { endpoint := some "https://example.azure.com", apiKey := some "key",
    modelGpt := none, modelAlt := none, modelKimi := none,
    modelFlux := none, fluxEndpoint := none }

/-- A configuration missing the required endpoint. -/
def envMissing : Env :=
  { endpoint := none, apiKey := some "key",
    modelGpt := none, modelAlt := none, modelKimi := none,
    modelFlux := none, fluxEndpoint := none }

/-- A test action that resolves successfully. -/
def actionA : ActionBehavior := { output := [], netCalls := 1, result := none }

/-- A test action that rejects with message `"boom"`. -/
def actionBoom : ActionBehavior :=
  { output := [], netCalls := 1, result := some { message := "boom", cause := none } }

/-- The spec's concrete scenario: required configuration present, test `A`
resolving and test `B` rejecting with `"boom"`, run through the harness. -/
def scenarioRun : ProcOut :=
  programGeneric envAltUnset [("A", actionA), ("B", actionBoom)]

/-- A tool-calling oracle that requests one valid `getWeather` invocation
and then finishes. -/
def demoToolOracle : Nat → ModelReply := fun k =>
  match k with
  | 0 => .callTool [{ location := some "Tokyo", unit := some "celsius" }]
  | _ => .finish "done"

/-- The interaction `demoToolOracle` produces under the configured bound. -/
def demoLoopOut : LoopOut :=
  { text := "done", roundTrips := 2,
    executed := [({ location := some "Tokyo", unit := some "celsius" },
                  "Tokyo: 22°C, partly cloudy")],
    invalid := [] }

/-! ## Claims -/

/-- C1: after a full run of any registered test list, the TestResult
sequence has exactly one entry per TestCase, in registration order, with
the result count equal to the number of registered tests — no entry is
dropped even when some actions reject. -/
theorem c1_one_result_per_test (tests : List (String × ActionBehavior)) :
    ((runAll tests).results).map (fun r => r.name) = tests.map Prod.fst ∧
    (runAll tests).results.length = tests.length := by
  constructor <;> simp [runAll, runAllFrom_results]

/-- C2: `runTest name action` prints a section header containing `name`,
invokes the action (every line the action printed appears on stdout),
returns `true` exactly when the action resolved, and on rejection returns
`false` after printing the error message — and the `cause` when present —
to the error stream; being a total function, the failure never propagates
out of `runTest`. -/
theorem c2_runTest_contract (name : String) (fn : ActionBehavior) :
    ("  " ++ name) ∈ (runTest name fn).stdout ∧
    (∀ line ∈ fn.output, line ∈ (runTest name fn).stdout) ∧
    ((runTest name fn).passed = true ↔ fn.result = none) ∧
    ∀ e, fn.result = some e →
      (runTest name fn).passed = false ∧
      ("    " ++ e.message) ∈ (runTest name fn).stderr ∧
      ∀ c, e.cause = some c → ("    Cause: " ++ c) ∈ (runTest name fn).stderr := by
  refine ⟨?_, ?_, ?_, ?_⟩
  · cases h : fn.result <;> simp [runTest, h, divider]
  · intro line hl
    exact runTest_output_mem name fn hl
  · cases h : fn.result <;> simp [runTest, h]
  · intro e he
    refine ⟨by simp [runTest, he], by simp [runTest, he, failLines], ?_⟩
    intro c hc
    simp [runTest, he, failLines, hc]

/-- Witness for C2 at the concrete rejecting action: the error message is
printed to the error stream. -/
theorem c2_runTest_contract_witness :
    ("    " ++ "boom") ∈ (runTest "B" actionBoom).stderr :=
  ((c2_runTest_contract "B" actionBoom).2.2.2 { message := "boom", cause := none }
    rfl).2.1

/-- C3: with the endpoint or the credential absent or empty, the process
prints the diagnostic to the error stream and exits with status 1 (hence
non-zero), with no test executed (empty results and trace) and no network
call performed. -/
theorem c3_preflight_gate (env : Env) (tests : List (String × ActionBehavior))
    (h : preflightFails env = true) :
    (programGeneric env tests).exitCode ≠ 0 ∧
    configErrorMsg ∈ (programGeneric env tests).stderr ∧
    (programGeneric env tests).results = [] ∧
    (programGeneric env tests).trace = [] ∧
    (programGeneric env tests).netCalls = 0 := by
  simp [programGeneric, h]

/-- Witness for C3 at a configuration missing the endpoint. -/
theorem c3_preflight_gate_witness :
    (programGeneric envMissing [("A", actionA)]).exitCode ≠ 0 :=
  (c3_preflight_gate envMissing [("A", actionA)] rfl).1

/-- C4: whenever the run reaches the summary, the aggregate line printed
is exactly the line built from the produced result sequence, whose
passed-count is the number of `passed = true` entries and whose total is
the sequence's length. -/
theorem c4_summary_arithmetic (env : Env) (tests : List (String × ActionBehavior))
    (h : preflightFails env = false) :
    summaryLine (programGeneric env tests).results ∈ (programGeneric env tests).stdout ∧
    summaryLine (programGeneric env tests).results =
      "\n  " ++ toString ((programGeneric env tests).results.countP (fun r => r.passed)) ++
        "/" ++ toString (programGeneric env tests).results.length ++ " tests passed" := by
  constructor
  · simp [programGeneric, h, summaryBlock]
  · simp [summaryLine, List.countP_eq_length_filter]

/-- Witness for C4 at the concrete two-test scenario. -/
theorem c4_summary_arithmetic_witness :
    summaryLine (programGeneric envAltUnset [("A", actionA), ("B", actionBoom)]).results ∈
      (programGeneric envAltUnset [("A", actionA), ("B", actionBoom)]).stdout :=
  (c4_summary_arithmetic envAltUnset [("A", actionA), ("B", actionBoom)] rfl).1

/-- C5 counterexample: with `AZURE_MODEL_ALT` unset the claim says the
alternative-model test is "recorded as neither pass nor fail in the
result sequence"; at a concrete run the skipped test IS recorded, as a
pass — its entry appears with `passed = true` and the sequence still has
all six entries. -/
theorem c5_counterexample :
    { name := "6. Alternative Model", passed := true } ∈
      (programIndex envAltUnset okOracle).results ∧
    (programIndex envAltUnset okOracle).results.length = 6 := by
  decide

/-- C5 amended: whenever the optional secondary model identifier is unset,
the alternative-model test performs zero remote calls, resolves rather
than failing, its skip line is printed distinctly, and its entry is
recorded in the result sequence as a pass (`passed = true`). -/
theorem c5_skip_semantics (env : Env) (o : Oracle)
    (halt : env.modelAltStr = "") (hp : preflightFails env = false) :
    (testAlternativeModel o env.modelAltStr).netCalls = 0 ∧
    (testAlternativeModel o env.modelAltStr).result = none ∧
    skipLine ∈ (programIndex env o).stdout ∧
    (programIndex env o).results.getLast? =
      some { name := "6. Alternative Model", passed := true } := by
  have h1 : testAlternativeModel o env.modelAltStr =
      { output := [skipLine], netCalls := 0, result := none } := by
    rw [halt]; rfl
  refine ⟨by rw [h1], by rw [h1], ?_, ?_⟩
  · have hmem : ("6. Alternative Model", testAlternativeModel o env.modelAltStr) ∈
        indexTests env o := by simp [indexTests]
    have hline : skipLine ∈ (testAlternativeModel o env.modelAltStr).output := by
      rw [h1]; simp
    have hout := runAllFrom_output_mem 0 (indexTests env o) _ hmem skipLine hline
    simp only [programIndex, programGeneric, hp, Bool.false_eq_true, if_false,
      List.mem_append, runAll]
    exact Or.inl (Or.inr hout)
  · simp [programIndex, programGeneric, hp, runAll, runAllFrom_results,
      indexTests, h1]

/-- Witness for the amended C5 at a concrete configuration and oracle. -/
theorem c5_skip_semantics_witness :
    (testAlternativeModel okOracle envAltUnset.modelAltStr).netCalls = 0 :=
  (c5_skip_semantics envAltUnset okOracle rfl rfl).1

/-- C6: the spec's concrete scenario — required configuration present,
action `A` resolving and action `B` rejecting with `"boom"` — yields the
result sequence `[(A, true), (B, false)]`; the printed aggregate line is
`"\n  1/2 tests passed"`, which contains the phrase `1/2 tests passed`
exactly once and appears on stdout; and `boom` occurs exactly once across
the error stream. -/
theorem c6_concrete_scenario :
    scenarioRun.results =
      [{ name := "A", passed := true }, { name := "B", passed := false }] ∧
    summaryLine scenarioRun.results = "\n  1/2 tests passed" ∧
    countOcc "1/2 tests passed" (summaryLine scenarioRun.results) = 1 ∧
    summaryLine scenarioRun.results ∈ scenarioRun.stdout ∧
    streamOcc "boom" scenarioRun.stderr = 1 := by
  decide

/-- C7: whenever the pre-flight gate passes, the process exit code of a
completed run is 0 regardless of which test actions failed: any two test
lists give the same exit code, so partial failure is observable only in
the printed text. -/
theorem c7_exit_code_uniform (env : Env)
    (t1 t2 : List (String × ActionBehavior)) (h : preflightFails env = false) :
    (programGeneric env t1).exitCode = 0 ∧
    (programGeneric env t1).exitCode = (programGeneric env t2).exitCode := by
  simp [programGeneric, h]

/-- Witness for C7: an all-pass list and a list with a failure give exit
code 0. -/
theorem c7_exit_code_uniform_witness :
    (programGeneric envAltUnset [("A", actionA)]).exitCode = 0 :=
  (c7_exit_code_uniform envAltUnset [("A", actionA)] [("B", actionBoom)] rfl).1

/-- C8: the execution trace of any registered test list is strictly
ordered by `evBefore` — every event of an earlier test precedes every
event of a later test, and each test's start precedes its settling, so
tests run one at a time in registration order and never overlap — and
every registered test both starts and settles. -/
theorem c8_sequential_execution (tests : List (String × ActionBehavior)) :
    ((runAll tests).trace).Pairwise evBefore ∧
    ∀ k, k < tests.length →
      Ev.start k ∈ (runAll tests).trace ∧
      ∃ b, Ev.settle k b ∈ (runAll tests).trace := by
  refine ⟨runAllFrom_trace_pairwise 0 tests, ?_⟩
  intro k hk
  constructor
  · have h := runAllFrom_start_mem tests 0 k hk
    simpa [runAll] using h
  · have h := runAllFrom_settle_mem tests 0 k hk
    simpa [runAll] using h

/-- Witness for C8 at a concrete two-test list. -/
theorem c8_sequential_execution_witness :
    ((runAll [("A", actionA), ("B", actionBoom)]).trace).Pairwise evBefore :=
  (c8_sequential_execution [("A", actionA), ("B", actionBoom)]).1

/-- C9: the tool-calling interaction as configured by `testToolCalling`
is bounded — the configured step bound is 5 and every completed run
performs at most that many model/tool round trips — and every tool
invocation whose `execute` callback ran was first validated against the
declared input schema, with the callback applied to exactly the validated
arguments. -/
theorem c9_tool_loop_bounded (oracle : Nat → ModelReply) (r : LoopOut)
    (h : runToolLoop oracle = Except.ok r) :
    toolStepBound = 5 ∧
    r.roundTrips ≤ toolStepBound ∧
    ∀ p ∈ r.executed,
      ∃ w, validateWeatherArgs p.1 = some w ∧ p.2 = getWeatherExecute w := by
  have h2 : toolLoopGo oracle 0 toolStepBound = Except.ok r := h
  refine ⟨rfl, ?_, toolLoopGo_executed oracle toolStepBound 0 r h2⟩
  have hb := toolLoopGo_roundTrips oracle toolStepBound 0 r h2
  simpa using hb

/-- Witness for C9: a concrete model oracle that requests one valid tool
invocation then finishes stays within the bound. -/
theorem c9_tool_loop_bounded_witness :
    demoLoopOut.roundTrips ≤ toolStepBound :=
  (c9_tool_loop_bounded demoToolOracle demoLoopOut (by rfl)).2.1

/-- C10: in the flux variant, with the required endpoint and credential
present, `main` rejects with the `ReferenceError` raised by the undefined
identifier `MODEL_GPd` before the test loop: the run collects no result
and executes no test, only the four banner-prefix lines reach stdout (no
summary), the error is logged to stderr by the trailing catch, and the
process exits with status 0. -/
theorem c10_flux_reference_error (env : Env) (o : Oracle)
    (h : preflightFails env = false) :
    (programFlux env o).results = [] ∧
    (programFlux env o).trace = [] ∧
    (programFlux env o).netCalls = 0 ∧
    (programFlux env o).exitCode = 0 ∧
    refErrorLine gpdRefError ∈ (programFlux env o).stderr ∧
    (programFlux env o).stdout = fluxBannerPrefix env := by
  simp [programFlux, h, fluxMain]

/-- Witness for C10 at a concrete configuration with both required values
present. -/
theorem c10_flux_reference_error_witness :
    (programFlux envAltUnset okOracle).exitCode = 0 :=
  (c10_flux_reference_error envAltUnset okOracle rfl).2.2.2.1
